import Mathlib

/-!
Shallow embedding of the Mongo-x-Python-Models data-access layer
(`src/connection.py` and `src/repository.py`).

The repository functions are translated statement by statement from the
Python source.  The pymongo driver and the remote MongoDB store are external
collaborators: they are modelled as explicit environments (records of
fallible operations) or as a small executable document store, and every
place where such a model is used is marked in the doc comment of the
definition.

Python exceptions are modelled as an inductive type carrying `str(e)` as a
`String`.  The `except` clauses of the source are translated with Python's
`isinstance` semantics under the pymongo class hierarchy, in which
`DuplicateKeyError`, `CursorNotFound`, `WriteConcernError` and
`BulkWriteError` are subclasses of `OperationFailure`, and
`ServerSelectionTimeoutError` is a subclass of `ConnectionFailure`.
-/

set_option autoImplicit false

namespace Mongo

/-- The pymongo exceptions imported by the source (plus Python's built-in
`ValueError`, raised by the local precondition checks), each carrying the
message `str(e)` would render. -/
inductive PyExc where
  | DuplicateKeyError (msg : String)
  | CursorNotFound (msg : String)
  | OperationFailure (msg : String)
  | WriteConcernError (msg : String)
  | BulkWriteError (msg : String)
  | InvalidOperation (msg : String)
  | ConfigurationError (msg : String)
  | ConnectionFailure (msg : String)
  | ServerSelectionTimeoutError (msg : String)
  | DocumentTooLarge (msg : String)
  | ValueError (msg : String)
  deriving DecidableEq, Repr

/-- `str(e)`: the message stored in the exception. -/
def PyExc.msg : PyExc → String
  | .DuplicateKeyError m | .CursorNotFound m | .OperationFailure m
  | .WriteConcernError m | .BulkWriteError m | .InvalidOperation m
  | .ConfigurationError m | .ConnectionFailure m | .ServerSelectionTimeoutError m
  | .DocumentTooLarge m | .ValueError m => m

/-- `type(e)(newMsg)`: construct an exception of the same class as `e` with a
new message. -/
def PyExc.withMsg : PyExc → String → PyExc
  | .DuplicateKeyError _, s => .DuplicateKeyError s
  | .CursorNotFound _, s => .CursorNotFound s
  | .OperationFailure _, s => .OperationFailure s
  | .WriteConcernError _, s => .WriteConcernError s
  | .BulkWriteError _, s => .BulkWriteError s
  | .InvalidOperation _, s => .InvalidOperation s
  | .ConfigurationError _, s => .ConfigurationError s
  | .ConnectionFailure _, s => .ConnectionFailure s
  | .ServerSelectionTimeoutError _, s => .ServerSelectionTimeoutError s
  | .DocumentTooLarge _, s => .DocumentTooLarge s
  | .ValueError _, s => .ValueError s

/-- `isinstance(e, DuplicateKeyError)`: `DuplicateKeyError` has no subclass
among the modelled exceptions. -/
def isDuplicateKeyError : PyExc → Bool
  | .DuplicateKeyError _ => true
  | _ => false

/-- `isinstance(e, CursorNotFound)`. -/
def isCursorNotFound : PyExc → Bool
  | .CursorNotFound _ => true
  | _ => false

/-- `isinstance(e, OperationFailure)` under the pymongo hierarchy:
`DuplicateKeyError`, `CursorNotFound`, `WriteConcernError` and
`BulkWriteError` are subclasses of `OperationFailure`. -/
def isOperationFailure : PyExc → Bool
  | .OperationFailure _ | .DuplicateKeyError _ | .CursorNotFound _
  | .WriteConcernError _ | .BulkWriteError _ => true
  | _ => false

/-- `isinstance(e, WriteConcernError)`. -/
def isWriteConcernError : PyExc → Bool
  | .WriteConcernError _ => true
  | _ => false

/-- `isinstance(e, BulkWriteError)`. -/
def isBulkWriteError : PyExc → Bool
  | .BulkWriteError _ => true
  | _ => false

/-- `isinstance(e, InvalidOperation)`. -/
def isInvalidOperation : PyExc → Bool
  | .InvalidOperation _ => true
  | _ => false

/-- `isinstance(e, ConfigurationError)`. -/
def isConfigurationError : PyExc → Bool
  | .ConfigurationError _ => true
  | _ => false

/-- `isinstance(e, ConnectionFailure)` under the pymongo hierarchy:
`ServerSelectionTimeoutError` is a subclass of `ConnectionFailure` (through
`AutoReconnect`). -/
def isConnectionFailure : PyExc → Bool
  | .ConnectionFailure _ | .ServerSelectionTimeoutError _ => true
  | _ => false

/-- `isinstance(e, ServerSelectionTimeoutError)`. -/
def isServerSelectionTimeoutError : PyExc → Bool
  | .ServerSelectionTimeoutError _ => true
  | _ => false

/-- `isinstance(e, DocumentTooLarge)` (a subclass of bson's
`InvalidDocument`, unrelated to `OperationFailure`). -/
def isDocumentTooLarge : PyExc → Bool
  | .DocumentTooLarge _ => true
  | _ => false

/-- The operand of a `raise` statement as the source writes it.
`exc` is a properly constructed exception instance; `strVal` is a `raise`
whose operand is a plain string (in Python 3 this aborts with `TypeError:
exceptions must derive from BaseException`); `instCall` is `raise e(...)`
where `e` is an already-constructed exception instance being called like a
class (in Python 3 this aborts with `TypeError` because exception instances
are not callable). -/
inductive Raised where
  | exc (e : PyExc)
  | strVal (s : String)
  | instCall (e : PyExc) (s : String)
  deriving DecidableEq, Repr

/-- `insert_exceptions_decorator` (repository.py lines 8-28): the exception
reaching the wrapper is matched against the `except` clauses in order and
the re-raised operand is returned; an exception no clause matches
propagates unchanged.
The clause `except (CursorNotFound, OperationFailure, WriteConcernError)`
re-raises `type(e)(...)`, i.e. the same class with the hint appended. -/
def insert_exceptions_map (e : PyExc) : Raised :=
  if isDuplicateKeyError e then
    .exc (.DuplicateKeyError ("Error to insert a document\x27:" ++ e.msg ++
      "\nCheck if you are not inserting one document with with a repeated unique index"))
  else if isCursorNotFound e || isOperationFailure e || isWriteConcernError e then
    .exc (e.withMsg ("Error to insert a document " ++ e.msg ++
      "\nCheck your permission to insert, your cluster infrastructure and your connection to the Bank."))
  else if isConfigurationError e then
    .exc (.ConfigurationError ("Error to insert a document\x27:" ++ e.msg ++
      "\nCheck if the parameters are valid or present!"))
  else if isDocumentTooLarge e then
    .exc (.DocumentTooLarge ("Error to insert a document:" ++ e.msg ++
      "\nApparently the document you are trying to insert is larger than the Bank\x27s capacity"))
  else .exc e

/-- `select_exceptions_decorator` (repository.py lines 31-43).  The
`ConfigurationError` clause executes `raise f"..."`, whose operand is a
plain string, not an exception. -/
def select_exceptions_map (e : PyExc) : Raised :=
  if isCursorNotFound e || isOperationFailure e || isConnectionFailure e then
    .exc (e.withMsg ("Error to find  the documents." ++ e.msg ++
      "\nCheck your permission to select, your cluster infrastructure and your connection to the Bank."))
  else if isConfigurationError e then
    .strVal ("Error to find  the documents:" ++ e.msg ++
      "\nCheck if the parameters are valid or present!")
  else .exc e

/-- `delete_exceptions_decorator` (repository.py lines 46-61).  The second
and third clauses execute `raise e(...)`, calling the caught exception
instance rather than its class.  Note that a `BulkWriteError` is already
matched by the second clause (it is a subclass of `OperationFailure`), so
the `BulkWriteError` entry of the third clause is unreachable. -/
def delete_exceptions_map (e : PyExc) : Raised :=
  if isDuplicateKeyError e then
    .exc (.DuplicateKeyError ("Error to delete documents:" ++ e.msg ++
      "\nCheck if you are not deleting one document with with a repeated unique index"))
  else if isCursorNotFound e || isOperationFailure e || isWriteConcernError e
      || isInvalidOperation e then
    .instCall e ("Error to delete documents" ++ e.msg ++
      "\nCheck your permission to delete, your cluster infrastructure and your connection to the Bank.")
  else if isConfigurationError e || isBulkWriteError e then
    .instCall e ("Error to delete documents:" ++ e.msg ++
      "\nCheck if the parameters are valid or present!")
  else .exc e

/-- `update_exceptions_decorator` (repository.py lines 63-83).  A
`BulkWriteError` is matched by the second clause (subclass of
`OperationFailure`) and re-raised via `type(e)(...)` as a `BulkWriteError`;
the `(ConfigurationError, BulkWriteError)` clause, which would re-raise a
`ConfigurationError`, is therefore only reachable for `ConfigurationError`. -/
def update_exceptions_map (e : PyExc) : Raised :=
  if isDuplicateKeyError e then
    .exc (.DuplicateKeyError ("Error to update the documents:" ++ e.msg ++
      "\nCheck that you are not updating a document with a repeated unique index"))
  else if isCursorNotFound e || isOperationFailure e || isWriteConcernError e
      || isInvalidOperation e then
    .exc (e.withMsg ("Error to update the documents:" ++ e.msg ++
      "\nCheck your permission to update, your cluster infrastructure and your connection to the Bank. "))
  else if isConfigurationError e || isBulkWriteError e then
    .exc (.ConfigurationError ("Error to update the documents:" ++ e.msg ++
      "\nCheck if the parameters are valid or present!"))
  else if isDocumentTooLarge e then
    .exc (.DocumentTooLarge ("Error to update the documents:" ++ e.msg ++
      "\nApparently the document you are trying to update is larger than the Bank\x27s capacity"))
  else .exc e

/-- Python values appearing in documents, filters and delta mappings.
`pyFloat` carries a rational: the claims never exercise float rounding, only
the *type* of the value and exact small arithmetic. -/
inductive PyVal where
  | pyInt (n : Int)
  | pyFloat (q : Rat)
  | pyBool (b : Bool)
  | pyStr (s : String)
  deriving DecidableEq, Repr

/-- `type(v) in [int, float]`: Python's exact-type membership test used by
`update_many_with_increment`.  `type(True)` is `bool`, which is not `int`
itself even though `bool` subclasses `int`, so booleans fail this test. -/
def PyVal.isIntOrFloatType : PyVal → Bool
  | .pyInt _ | .pyFloat _ => true
  | _ => false

/-- A document: a mapping from string keys to values (association list). -/
abbrev Doc := List (String × PyVal)

/-- A simple equality filter: every listed key must hold the listed value. -/
abbrev MongoFilter := List (String × PyVal)

/-- A projection / return-options mapping (field name to 0/1 flag). -/
abbrev Projection := List (String × Int)

/-- An order specification: (field name, direction) pairs. -/
abbrev SortSpec := List (String × Int)

/-- Value of a field of a document, if present. -/
def getField (d : Doc) (k : String) : Option PyVal :=
  (d.find? (fun kv => kv.1 = k)).map (fun kv => kv.2)

/-- Replace the value of a field, or append it when absent. -/
def setField : Doc → String → PyVal → Doc
  | [], k, v => [(k, v)]
  | (k0, v0) :: rest, k, v =>
    if k0 = k then (k, v) :: rest else (k0, v0) :: setField rest k v

/-- Mini-store model: a document matches an equality filter when every
(key, value) pair of the filter is present in the document. -/
def matchesFilter (d : Doc) (f : MongoFilter) : Bool :=
  f.all (fun kv => decide (getField d kv.1 = some kv.2))

/-- Mini-store model of numeric addition as MongoDB applies `$inc`
(int + int stays int, anything involving a float is a float); `none` for
non-numeric operands. -/
def numAdd : PyVal → PyVal → Option PyVal
  | .pyInt a, .pyInt b => some (.pyInt (a + b))
  | .pyInt a, .pyFloat b => some (.pyFloat ((a : Rat) + b))
  | .pyFloat a, .pyInt b => some (.pyFloat (a + (b : Rat)))
  | .pyFloat a, .pyFloat b => some (.pyFloat (a + b))
  | _, _ => none

/-- Mini-store model of `$inc` on one document: a missing field is created
holding the delta, a numeric field is incremented.  (A non-numeric target
would make the remote operation fail; the claims never exercise it, so the
document is left unchanged.) -/
def incDoc (d : Doc) (k : String) (delta : PyVal) : Doc :=
  match getField d k with
  | none => setField d k delta
  | some old =>
    match numAdd old delta with
    | some v => setField d k v
    | none => d

/-- Mini-store model of `collection.update_many(filter, {"$inc": {k: delta}})`:
returns the updated document list and `modified_count`, the number of
matching documents actually changed. -/
def updateManyInc (docs : List Doc) (f : MongoFilter) (k : String) (delta : PyVal) :
    List Doc × Nat :=
  (docs.map (fun d => if matchesFilter d f then incDoc d k delta else d),
   docs.countP (fun d => matchesFilter d f && decide (incDoc d k delta ≠ d)))

/-- Outcome of a Python call: a return value or a raised exception. -/
inductive PyResult (α : Type) where
  | ok (val : α)
  | raises (e : PyExc)
  deriving DecidableEq, Repr

/-- The repository's private query-key constant `self.__increment_query`. -/
def increment_query : String := "$inc"

/-- The repository's private query-key constant `self.__or_query`. -/
def or_query : String := "$or"

/-- One `collection.update_many(search_filter, {"$inc": {key: number}})`
call issued to the store: the filter, the update-operator key
(`self.__increment_query`), and the single-field delta document. -/
abbrev IncCall := MongoFilter × String × String × PyVal

/-- Result of `update_many_with_increment`: the returned count or raised
exception, the final state of the store, and the update calls issued. -/
structure IncResult where
  outcome : PyResult Nat
  finalDocs : List Doc
  calls : List IncCall
  deriving DecidableEq, Repr

/-- The `for key, number in key_and_number.items():` loop of
`update_many_with_increment` (repository.py lines 419-424): each iteration
first checks `type(number) not in [int, float]` and raises `ValueError`,
otherwise issues one `$inc` update against the same filter and adds its
`modified_count` to the running total. -/
def incLoop (search_filter : MongoFilter) :
    List (String × PyVal) → List Doc → IncResult
  | [], docs => ⟨.ok 0, docs, []⟩
  | (key, number) :: rest, docs =>
    if number.isIntOrFloatType then
      let p := updateManyInc docs search_filter key number
      let r := incLoop search_filter rest p.1
      ⟨match r.outcome with
        | .ok n => .ok (p.2 + n)
        | .raises e => .raises e,
       r.finalDocs,
       (search_filter, increment_query, key, number) :: r.calls⟩
    else
      ⟨.raises (.ValueError "The value of increment/decrement must be only an int or a float!"),
       docs, []⟩

/-- `Repository.update_many_with_increment` (repository.py lines 396-426)
run against the mini store `docs`.  The surrounding
`update_exceptions_decorator` catches none of the exceptions this function
raises locally (`ValueError` matches no clause), so the raw behaviour is
what the caller observes. -/
def update_many_with_increment (docs : List Doc) (search_filter : MongoFilter)
    (key_and_number : List (String × PyVal)) : IncResult :=
  incLoop search_filter key_and_number docs

/-- Result of `create_new_index`: the returned boolean or raised exception,
and the key list of each `collection.create_index` call issued. -/
structure IndexResult where
  outcome : PyResult Bool
  calls : List (List (String × Int))
  deriving DecidableEq, Repr

/-- The `for key, order in index_dict.items():` loop of `create_new_index`
(repository.py lines 544-548): each iteration checks
`order not in [-1, 1]` and raises `ValueError`, otherwise issues
`collection.create_index([(key, order)])` — a one-key index per mapping
entry; `True` is returned after the loop. -/
def create_new_index_loop : List (String × Int) → IndexResult
  | [] => ⟨.ok true, []⟩
  | (key, order) :: rest =>
    if order = -1 || order = 1 then
      let r := create_new_index_loop rest
      ⟨r.outcome, [(key, order)] :: r.calls⟩
    else
      ⟨.raises (.ValueError "Invalid order_by parameter. Please use either"), []⟩

/-- `Repository.create_new_index` (repository.py lines 524-550).  The
`index_exceptions_decorator` catches no `ValueError`, so the raw behaviour
is what the caller observes. -/
def create_new_index (index_dict : List (String × Int)) : IndexResult :=
  create_new_index_loop index_dict

/-- Result of `create_new_index_ttl`: the returned boolean or raised
exception and the `create_index` call issued, recorded as the single
(key, direction) pair together with the `expireAfterSeconds` option. -/
structure TtlResult where
  outcome : PyResult Bool
  calls : List ((String × Int) × Int)
  deriving DecidableEq, Repr

/-- Model of Python's `str.lower()` (basic-latin lowering, character by
character). -/
def pyLower (s : String) : String :=
  String.mk (s.data.map Char.toLower)

/-- The `time_units` dictionary of `create_new_index_ttl` (repository.py
lines 502-507), with each `timedelta` rendered as its `total_seconds()`. -/
def time_units (s : String) : Option Int :=
  if s = "seconds" then some 1
  else if s = "minutes" then some 60
  else if s = "hours" then some 3600
  else if s = "days" then some 86400
  else none

/-- `Repository.create_new_index_ttl` (repository.py lines 469-522): looks
the lowercased metric up in `time_units`, validates `order_by`, and issues
`collection.create_index([(name_index, order_by)],
expireAfterSeconds=timedelta(seconds=time_to_live * unit.total_seconds()).total_seconds())`.
The Python signature defaults `order_by` to `1`. -/
def create_new_index_ttl (time_metric : String) (time_to_live : Int)
    (name_index : String) (order_by : Int) : TtlResult :=
  match time_units (pyLower time_metric) with
  | some unitSeconds =>
    if order_by = 1 || order_by = -1 then
      ⟨.ok true, [((name_index, order_by), time_to_live * unitSeconds)]⟩
    else
      ⟨.raises (.ValueError "Invalid order_by parameter. Please use either 1 (ascending) or -1 (descending)."),
       []⟩
  | none =>
    ⟨.raises (.ValueError "Invalid time metric. Please use one of: seconds, minutes, hours, days."),
     []⟩

/-- Mini-store model: type rank used to order heterogeneous values when the
store sorts documents (numbers before strings before booleans, a rendering
of the BSON comparison order). -/
def PyVal.typeRank : PyVal → Nat
  | .pyInt _ | .pyFloat _ => 0
  | .pyStr _ => 1
  | .pyBool _ => 2

/-- Numeric reading of a value, used only to compare two values of the
numeric rank. -/
def PyVal.numVal : PyVal → Rat
  | .pyInt n => (n : Rat)
  | .pyFloat q => q
  | _ => 0

/-- Mini-store model: a total comparison on values (by type rank, then by
value within a rank). -/
def cmpPyVal (a b : PyVal) : Ordering :=
  if a.typeRank < b.typeRank then .lt
  else if b.typeRank < a.typeRank then .gt
  else
    match a, b with
    | .pyStr s, .pyStr t => compare s t
    | .pyBool x, .pyBool y =>
      if x = y then .eq else if x = false then .lt else .gt
    | _, _ => compare a.numVal b.numVal

/-- Mini-store model: field comparison for sorting; a missing field sorts
before any present value. -/
def cmpOptVal : Option PyVal → Option PyVal → Ordering
  | none, none => .eq
  | none, some _ => .lt
  | some _, none => .gt
  | some x, some y => cmpPyVal x y

/-- Mini-store model: lexicographic document comparison along a sort
specification; direction -1 swaps the comparison of that key. -/
def docCmp : SortSpec → Doc → Doc → Ordering
  | [], _, _ => .eq
  | (k, dir) :: rest, a, b =>
    let c := cmpOptVal (getField a k) (getField b k)
    let c := if dir = -1 then c.swap else c
    match c with
    | .eq => docCmp rest a b
    | o => o

/-- Mini-store model: `cursor.sort(order_by)` as a sort of the matched
documents by `docCmp`. -/
def sortDocs (spec : SortSpec) (docs : List Doc) : List Doc :=
  List.insertionSort (fun a b => docCmp spec a b ≠ .gt) docs

/-- Mini-store model of an inclusion projection: keep the fields whose flag
in the projection is 1.  (The claims never inspect projected output.) -/
def applyProjection (proj : Projection) (d : Doc) : Doc :=
  d.filter (fun kv => proj.any (fun pk => pk.1 = kv.1 && pk.2 = 1))

/-- One `collection.find` call issued to the store by `search_many_or`: the
single-key query dictionary `{queryKey: orFilters}` the source builds, the
optional projection argument, and the optional cursor sort. -/
structure FindCall where
  queryKey : String
  orFilters : List MongoFilter
  projection : Option Projection
  sortSpec : Option SortSpec
  deriving DecidableEq, Repr

/-- Mini-store model of `collection.find({"$or": fs}, proj?)`: the documents
matching at least one of the filters, projected when a projection is given. -/
def storeFindOr (docs : List Doc) (fs : List MongoFilter) (proj : Option Projection) :
    List Doc :=
  let matched := docs.filter (fun d => fs.any (fun f => matchesFilter d f))
  match proj with
  | none => matched
  | some p => matched.map (applyProjection p)

/-- `Repository.search_many_or` (repository.py lines 291-335) run against
the mini store `docs`: the four-way branch on which optional arguments are
present, each branch issuing exactly one `find` on the query
`{self.__or_query: search_filter}`. -/
def search_many_or (docs : List Doc) (search_filter : List MongoFilter)
    (return_options : Option Projection) (order_by : Option SortSpec) :
    List Doc × List FindCall :=
  match return_options, order_by with
  | none, none =>
    (storeFindOr docs search_filter none,
     [⟨or_query, search_filter, none, none⟩])
  | none, some ob =>
    (sortDocs ob (storeFindOr docs search_filter none),
     [⟨or_query, search_filter, none, some ob⟩])
  | some ro, none =>
    (storeFindOr docs search_filter (some ro),
     [⟨or_query, search_filter, some ro, none⟩])
  | some ro, some ob =>
    (sortDocs ob (storeFindOr docs search_filter (some ro)),
     [⟨or_query, search_filter, some ro, some ob⟩])

/-- `MongoConnectionHandler` (connection.py): the two construction-time
strings and the two private handles, both `None` after `__init__`.  Client
and database handles are opaque; they are modelled as numbers issued by the
driver environment. -/
structure MongoConnectionHandler where
  connection_string : String
  db_name : String
  client : Option Nat
  db_connection : Option Nat
  deriving DecidableEq, Repr

/-- `MongoConnectionHandler.__init__`: both handles start unset. -/
def mongoConnectionHandlerInit (connection_string db_name : String) :
    MongoConnectionHandler :=
  ⟨connection_string, db_name, none, none⟩

/-- Model of the pymongo driver as seen by `connect`:
`mkClient` is `MongoClient(connection_string)` and `clientGetDatabase` is
`client[db_name]`; either may return a handle or raise. -/
structure PymongoEnv where
  mkClient : String → PyResult Nat
  clientGetDatabase : Nat → String → PyResult Nat

/-- The `except` clauses of `connect` (connection.py lines 33-40): a
`ServerSelectionTimeoutError` is replaced by one with the fixed timeout
message, any other `ConnectionFailure` by one with the message naming the
database; other exceptions propagate unchanged.  (The specific clause comes
first, so the subclass relation does not reroute it.) -/
def connectRemap (db_name : String) (e : PyExc) : PyExc :=
  if isServerSelectionTimeoutError e then
    .ServerSelectionTimeoutError ("TimeoutError while connecting to MongoDB.\nUnable to connect to the bank during the available timeout.\n Check the connection_string in your cluster infrastructure")
  else if isConnectionFailure e then
    .ConnectionFailure ("ConnectionFailure.\n Check your connection string and whether you have permission to access the" ++ db_name)
  else e

/-- `MongoConnectionHandler.connect` (connection.py lines 22-40): assigns
`self.__client` from `MongoClient(...)`, then `self.__db_connection` from
`self.__client[self.__db_name]`; the `except` clauses re-raise but do not
touch either attribute.  Returns the handler state after the call together
with the raised exception, if any. -/
def connect (env : PymongoEnv) (h : MongoConnectionHandler) :
    MongoConnectionHandler × Option PyExc :=
  match env.mkClient h.connection_string with
  | .raises e => (h, some (connectRemap h.db_name e))
  | .ok c =>
    match env.clientGetDatabase c h.db_name with
    | .raises e =>
      (⟨h.connection_string, h.db_name, some c, h.db_connection⟩,
       some (connectRemap h.db_name e))
    | .ok db =>
      (⟨h.connection_string, h.db_name, some c, some db⟩, none)

/-- `MongoConnectionHandler.get_connection`. -/
def get_connection (h : MongoConnectionHandler) : Option Nat :=
  h.db_connection

/-- `MongoConnectionHandler.get_client`. -/
def get_client (h : MongoConnectionHandler) : Option Nat :=
  h.client

/-- The message built by the `except OperationFailure` clause of
`Repository.__get_collection` (repository.py lines 128-130). -/
def get_collection_err_msg (collection_name m : String) : String :=
  "Error trying to collect collection  \x27" ++ collection_name ++ "\x27:" ++ m ++
    ",\nCheck the name of your collection, your permission or authentication"

/-- `Repository.__get_collection` (repository.py lines 125-131) over an
opaque resolution outcome: an `OperationFailure` (or subclass) from
`db_connection.get_collection` is replaced by a plain `OperationFailure`
with the normalized message; anything else propagates. -/
def get_collection_accessor (collection_name : String) (outcome : PyResult Unit) :
    PyResult Unit :=
  match outcome with
  | .ok _ => .ok ()
  | .raises e =>
    if isOperationFailure e then
      .raises (.OperationFailure (get_collection_err_msg collection_name e.msg))
    else .raises e

/-- Environment of one `insert_one_document` call: the outcome of
`self.__db_connection.get_collection(...)` inside the private accessor, and
the outcome of `collection.insert_one(document)`. -/
structure InsertEnv where
  resolve_outcome : PyResult Unit
  insert_outcome : PyResult Unit

/-- What a decorated call delivers to the caller: the return value, or the
operand of the `raise` executed by the wrapper. -/
inductive WrapResult (α : Type) where
  | ok (val : α)
  | raised (r : Raised)
  deriving DecidableEq, Repr

/-- The undecorated body of `Repository.insert_one_document`
(repository.py lines 143-149): resolve the collection through the private
accessor, insert, return the document. -/
def insert_one_document_body (collection_name : String) (env : InsertEnv)
    (document : Doc) : PyResult Doc :=
  match get_collection_accessor collection_name env.resolve_outcome with
  | .raises e => .raises e
  | .ok _ =>
    match env.insert_outcome with
    | .raises e => .raises e
    | .ok _ => .ok document

/-- Claim-side description of the per-operation `modified_count`s of
`update_many_with_increment`: one count per field of the delta mapping,
each computed against the store state left by the previous field's update. -/
def perFieldCounts (f : MongoFilter) : List (String × PyVal) → List Doc → List Nat
  | [], _ => []
  | (k, n) :: rest, docs =>
    let p := updateManyInc docs f k n
    p.2 :: perFieldCounts f rest p.1

/-- Whether a value is a Python boolean. -/
def isPyBool : PyVal → Bool
  | .pyBool _ => true
  | _ => false

/-- `Repository.insert_one_document` as the caller sees it: the body runs
inside the `try` of `insert_exceptions_decorator`, so every exception the
body raises — including the accessor's normalized `OperationFailure` — is
matched against the decorator's clauses. -/
def insert_one_document (collection_name : String) (env : InsertEnv)
    (document : Doc) : WrapResult Doc :=
  match insert_one_document_body collection_name env document with
  | .ok d => .ok d
  | .raises e => .raised (insert_exceptions_map e)

/-! ## Theorems -/

/-- C1 (amended): when the private accessor's collection resolution fails
with an `OperationFailure`, `insert_one_document` does NOT deliver it
raw: the `insert_exceptions_decorator` catches it in its
`(CursorNotFound, OperationFailure, WriteConcernError)` clause and
re-raises an `OperationFailure` whose message is the decorator's
"Error to insert a document" remapping with the accessor's normalized
message embedded in it. -/
theorem C1_resolution_failure_is_decorator_wrapped
    (name m : String) (insRes : PyResult Unit) (d : Doc) :
    insert_one_document name ⟨.raises (.OperationFailure m), insRes⟩ d =
      .raised (.exc (.OperationFailure
        ("Error to insert a document " ++ get_collection_err_msg name m ++
         "\nCheck your permission to insert, your cluster infrastructure and your connection to the Bank."))) :=
  rfl

/-- C1 counterexample: with the accessor failing (`OperationFailure "boom"`
while resolving collection "users"), the error reaching the caller of
`insert_one_document` carries the decorator's "Error to insert a document"
remapping, not the accessor's original message — so the claim that the
resolution failure propagates as-is is false. -/
theorem C1_counterexample :
    insert_one_document "users" ⟨.raises (.OperationFailure "boom"), .ok ()⟩ [] =
      .raised (.exc (.OperationFailure
        ("Error to insert a document " ++ get_collection_err_msg "users" "boom" ++
         "\nCheck your permission to insert, your cluster infrastructure and your connection to the Bank."))) ∧
    ("Error to insert a document " ++ get_collection_err_msg "users" "boom" ++
     "\nCheck your permission to insert, your cluster infrastructure and your connection to the Bank.") ≠
      get_collection_err_msg "users" "boom" := by
  refine ⟨rfl, ?_⟩
  decide

/-- C2 (evaluation of the defect): the per-category decorators do not
always re-raise an exception of the caught kind.  A `ConfigurationError`
inside a select operation makes the wrapper `raise` a plain string; any
`OperationFailure`-family error or `ConfigurationError` in the delete path
makes the wrapper call the caught exception instance `e(...)` instead of
constructing one of its class; only the update path's `BulkWriteError` leg
behaves as claimed (it is matched by the `OperationFailure` clause, which
uses `type(e)(...)`). -/
theorem C2_decorator_raise_kinds :
    select_exceptions_map (.ConfigurationError "x") =
      .strVal ("Error to find  the documents:x\nCheck if the parameters are valid or present!") ∧
    delete_exceptions_map (.OperationFailure "y") =
      .instCall (.OperationFailure "y")
        ("Error to delete documentsy\nCheck your permission to delete, your cluster infrastructure and your connection to the Bank.") ∧
    delete_exceptions_map (.ConfigurationError "w") =
      .instCall (.ConfigurationError "w")
        ("Error to delete documents:w\nCheck if the parameters are valid or present!") ∧
    update_exceptions_map (.BulkWriteError "z") =
      .exc (.BulkWriteError
        ("Error to update the documents:z\nCheck your permission to update, your cluster infrastructure and your connection to the Bank. ")) := by
  refine ⟨rfl, rfl, rfl, rfl⟩

/-- C3 (evaluation of the defect): for the two-key mapping
`{"name": -1, "age": 1}`, `create_new_index` issues two separate
single-field `create_index` calls — one per key, in mapping iteration
order — and returns `True`; it never issues the single compound call
`[("name", -1), ("age", 1)]` the claim (and the function's own docstring)
describes. -/
theorem C3_create_new_index_separate_indexes :
    create_new_index [("name", -1), ("age", 1)] =
      ⟨.ok true, [[("name", -1)], [("age", 1)]]⟩ ∧
    (create_new_index [("name", -1), ("age", 1)]).calls.length = 2 ∧
    [("name", -1), ("age", 1)] ∉ (create_new_index [("name", -1), ("age", 1)]).calls := by
  refine ⟨rfl, rfl, ?_⟩
  decide

/-- C4 counterexample: for the mapping `{"a": 1, "b": 2}` the invalid
direction 2 does raise the `ValueError`, but the store has already received
the `create_index` call for the preceding valid key "a" — the claim that no
key of the mapping results in a store call is false. -/
theorem C4_counterexample :
    (create_new_index [("a", 1), ("b", 2)]).outcome =
      .raises (.ValueError "Invalid order_by parameter. Please use either") ∧
    (create_new_index [("a", 1), ("b", 2)]).calls = [[("a", 1)]] ∧
    (create_new_index [("a", 1), ("b", 2)]).calls ≠ [] := by
  refine ⟨rfl, rfl, ?_⟩
  decide

/-- C4 (amended): `create_new_index` validates each key's direction
immediately before issuing that key's own store call, so on the first
invalid direction it raises the `ValueError` and issues no call for that
key or any later key — but every key with a valid direction that precedes
the invalid one in iteration order has already produced one single-field
`create_index` call. -/
theorem C4_invalid_direction_raises_after_prefix_calls
    (pre : List (String × Int)) (k : String) (d : Int) (rest : List (String × Int))
    (hpre : ∀ kv ∈ pre, kv.2 = -1 ∨ kv.2 = 1) (hd : ¬(d = -1 ∨ d = 1)) :
    (create_new_index (pre ++ (k, d) :: rest)).outcome =
      .raises (.ValueError "Invalid order_by parameter. Please use either") ∧
    (create_new_index (pre ++ (k, d) :: rest)).calls =
      pre.map (fun kv => [(kv.1, kv.2)]) := by
  induction pre with
  | nil =>
    have h1 : decide (d = -1) = false := decide_eq_false (fun h => hd (Or.inl h))
    have h2 : decide (d = 1) = false := decide_eq_false (fun h => hd (Or.inr h))
    simp [create_new_index, create_new_index_loop, h1, h2]
  | cons p tl ih =>
    obtain ⟨k0, o0⟩ := p
    have ho : o0 = -1 ∨ o0 = 1 := hpre (k0, o0) (List.mem_cons_self _ _)
    have h3 : (decide (o0 = -1) || decide (o0 = 1)) = true := by
      rcases ho with h | h <;> simp [h]
    have ih0 := ih (fun kv hkv => hpre kv (List.mem_cons_of_mem _ hkv))
    simp only [List.cons_append, List.map_cons, create_new_index,
      create_new_index_loop, h3, if_true] at ih0 ⊢
    exact ⟨ih0.1, congrArg (List.cons [(k0, o0)]) ih0.2⟩

/-- C4 witness: the amended theorem applied to the mapping
`[("a", 1), ("b", 2)]`. -/
theorem C4_witness :
    (∀ kv ∈ [("a", (1 : Int))], kv.2 = -1 ∨ kv.2 = 1) ∧
    ¬((2 : Int) = -1 ∨ (2 : Int) = 1) ∧
    ((create_new_index ([("a", 1)] ++ ("b", 2) :: [])).outcome =
      .raises (.ValueError "Invalid order_by parameter. Please use either") ∧
     (create_new_index ([("a", 1)] ++ ("b", 2) :: [])).calls =
      [("a", (1 : Int))].map (fun kv => [(kv.1, kv.2)])) :=
  ⟨by decide, by decide,
   C4_invalid_direction_raises_after_prefix_calls [("a", 1)] "b" 2 []
     (by decide) (by decide)⟩

/-- C5: for every filter and delta mapping of numeric values,
`update_many_with_increment` issues one independent `$inc` `update_many`
against the same filter per field, in mapping iteration order, and returns
the sum of the per-operation modified counts; in particular, with exactly
one document matching the filter and a two-field delta mapping it returns
2 even though only one document was touched. -/
theorem C5_increment_one_update_per_field_sum :
    (∀ (docs : List Doc) (f : MongoFilter) (kns : List (String × PyVal)),
      (∀ kv ∈ kns, PyVal.isIntOrFloatType kv.2 = true) →
      (update_many_with_increment docs f kns).calls =
        kns.map (fun kv => (f, increment_query, kv.1, kv.2)) ∧
      (update_many_with_increment docs f kns).outcome =
        .ok (perFieldCounts f kns docs).sum) ∧
    (update_many_with_increment
        [[("x", .pyStr "m"), ("a", .pyInt 0), ("b", .pyInt 0)], [("x", .pyStr "q")]]
        [("x", .pyStr "m")]
        [("a", .pyInt 1), ("b", .pyInt 2)]).outcome = .ok 2 := by
  constructor
  · intro docs f kns
    induction kns generalizing docs with
    | nil =>
      intro _
      simp [update_many_with_increment, incLoop, perFieldCounts]
    | cons p rest ih =>
      intro hall
      obtain ⟨k0, v0⟩ := p
      have hv : v0.isIntOrFloatType = true := hall (k0, v0) (List.mem_cons_self _ _)
      have ih0 := ih (updateManyInc docs f k0 v0).1
        (fun kv hkv => hall kv (List.mem_cons_of_mem _ hkv))
      simp only [update_many_with_increment, incLoop, hv, if_true, List.map_cons,
        perFieldCounts, List.sum_cons] at ih0 ⊢
      refine ⟨congrArg _ ih0.1, ?_⟩
      rw [ih0.2]
  · rfl

/-- C5 witness: the general part of the theorem applied to a store with one
matching document and the delta mapping `{"a": 1, "b": 2}`. -/
theorem C5_witness :
    (∀ kv ∈ [("a", PyVal.pyInt 1), ("b", PyVal.pyInt 2)],
      PyVal.isIntOrFloatType kv.2 = true) ∧
    ((update_many_with_increment
        [[("x", .pyStr "m"), ("a", .pyInt 0), ("b", .pyInt 0)], [("x", .pyStr "q")]]
        [("x", .pyStr "m")] [("a", .pyInt 1), ("b", .pyInt 2)]).calls =
      [("a", PyVal.pyInt 1), ("b", PyVal.pyInt 2)].map
        (fun kv => ([("x", PyVal.pyStr "m")], increment_query, kv.1, kv.2)) ∧
     (update_many_with_increment
        [[("x", .pyStr "m"), ("a", .pyInt 0), ("b", .pyInt 0)], [("x", .pyStr "q")]]
        [("x", .pyStr "m")] [("a", .pyInt 1), ("b", .pyInt 2)]).outcome =
      .ok (perFieldCounts [("x", PyVal.pyStr "m")]
            [("a", PyVal.pyInt 1), ("b", PyVal.pyInt 2)]
            [[("x", .pyStr "m"), ("a", .pyInt 0), ("b", .pyInt 0)], [("x", .pyStr "q")]]).sum) :=
  ⟨by decide,
   C5_increment_one_update_per_field_sum.1
     [[("x", .pyStr "m"), ("a", .pyInt 0), ("b", .pyInt 0)], [("x", .pyStr "q")]]
     [("x", .pyStr "m")] [("a", .pyInt 1), ("b", .pyInt 2)] (by decide)⟩

/-- C6 counterexample: with the delta mapping `{"a": 1, "b": "no"}` against
a filter with one matching document, the non-numeric value "no" does raise
the `ValueError`, but the `$inc` update for the preceding numeric field "a"
has already been sent to the store — the claim that no increment for any
field of the mapping is sent is false. -/
theorem C6_counterexample :
    (update_many_with_increment [[("x", PyVal.pyStr "m"), ("a", PyVal.pyInt 0)]]
        [("x", PyVal.pyStr "m")]
        [("a", PyVal.pyInt 1), ("b", PyVal.pyStr "no")]).outcome =
      .raises (.ValueError "The value of increment/decrement must be only an int or a float!") ∧
    (update_many_with_increment [[("x", PyVal.pyStr "m"), ("a", PyVal.pyInt 0)]]
        [("x", PyVal.pyStr "m")]
        [("a", PyVal.pyInt 1), ("b", PyVal.pyStr "no")]).calls =
      [([("x", PyVal.pyStr "m")], increment_query, "a", PyVal.pyInt 1)] ∧
    (update_many_with_increment [[("x", PyVal.pyStr "m"), ("a", PyVal.pyInt 0)]]
        [("x", PyVal.pyStr "m")]
        [("a", PyVal.pyInt 1), ("b", PyVal.pyStr "no")]).calls ≠ [] := by
  refine ⟨rfl, rfl, ?_⟩
  decide

/-- C6 (amended): `update_many_with_increment` checks each delta value
immediately before issuing that field's own update call, so on the first
non-numeric value it raises the `ValueError` and sends no update for that
field or any later field — but every numeric field preceding it in
iteration order has already had its `$inc` update sent to the store. -/
theorem C6_nonnumeric_delta_raises_after_prefix_calls
    (docs : List Doc) (f : MongoFilter) (pre : List (String × PyVal))
    (k : String) (v : PyVal) (rest : List (String × PyVal))
    (hpre : ∀ kv ∈ pre, PyVal.isIntOrFloatType kv.2 = true)
    (hv : PyVal.isIntOrFloatType v = false) :
    (update_many_with_increment docs f (pre ++ (k, v) :: rest)).outcome =
      .raises (.ValueError "The value of increment/decrement must be only an int or a float!") ∧
    (update_many_with_increment docs f (pre ++ (k, v) :: rest)).calls =
      pre.map (fun kv => (f, increment_query, kv.1, kv.2)) := by
  induction pre generalizing docs with
  | nil =>
    simp [update_many_with_increment, incLoop, hv]
  | cons p tl ih =>
    obtain ⟨k0, v0⟩ := p
    have hv0 : v0.isIntOrFloatType = true := hpre (k0, v0) (List.mem_cons_self _ _)
    have ih0 := ih (updateManyInc docs f k0 v0).1
      (fun kv hkv => hpre kv (List.mem_cons_of_mem _ hkv))
    simp only [List.cons_append, List.append_eq, List.map_cons,
      update_many_with_increment, incLoop, hv0, if_true] at ih0 ⊢
    refine ⟨?_, congrArg _ ih0.2⟩
    rw [ih0.1]

/-- C6 witness: the amended theorem applied to the delta mapping
`{"a": 1, "b": "no"}`. -/
theorem C6_witness :
    (∀ kv ∈ [("a", PyVal.pyInt 1)], PyVal.isIntOrFloatType kv.2 = true) ∧
    PyVal.isIntOrFloatType (PyVal.pyStr "no") = false ∧
    ((update_many_with_increment [[("x", PyVal.pyStr "m"), ("a", PyVal.pyInt 0)]]
        [("x", PyVal.pyStr "m")]
        ([("a", PyVal.pyInt 1)] ++ ("b", PyVal.pyStr "no") :: [])).outcome =
      .raises (.ValueError "The value of increment/decrement must be only an int or a float!") ∧
     (update_many_with_increment [[("x", PyVal.pyStr "m"), ("a", PyVal.pyInt 0)]]
        [("x", PyVal.pyStr "m")]
        ([("a", PyVal.pyInt 1)] ++ ("b", PyVal.pyStr "no") :: [])).calls =
      [("a", PyVal.pyInt 1)].map
        (fun kv => ([("x", PyVal.pyStr "m")], increment_query, kv.1, kv.2))) :=
  ⟨by decide, by decide,
   C6_nonnumeric_delta_raises_after_prefix_calls
     [[("x", PyVal.pyStr "m"), ("a", PyVal.pyInt 0)]] [("x", PyVal.pyStr "m")]
     [("a", PyVal.pyInt 1)] "b" (PyVal.pyStr "no") [] (by decide) (by decide)⟩

/-- C7 counterexample: an environment in which client creation succeeds and
binding the database then fails with a `ConnectionFailure` (both statements
sit inside the same `try`, and the `except` clauses reset nothing): after
the failing `connect` on a fresh handler, `get_client` returns the new
client handle, not null — so the claim that both handles are unset after
every connect failure is false. -/
theorem C7_counterexample :
    (connect ⟨fun _ => .ok 7, fun _ _ => .raises (.ConnectionFailure "denied")⟩
        (mongoConnectionHandlerInit "mongodb://host" "bank")).2 =
      some (.ConnectionFailure
        ("ConnectionFailure.\n Check your connection string and whether you have permission to access the" ++ "bank")) ∧
    get_client
      (connect ⟨fun _ => .ok 7, fun _ _ => .raises (.ConnectionFailure "denied")⟩
        (mongoConnectionHandlerInit "mongodb://host" "bank")).1 = some 7 :=
  ⟨rfl, rfl⟩

/-- C7 (amended): the `except` clauses of `connect` do not reset the
handles.  When client creation itself fails (with either caught error) the
handler is left exactly as before the call — in particular both accessors
still return null on a fresh handler; but when client creation succeeds
and the database binding then fails, the client handle remains set to the
newly created client and only the database handle keeps its previous
value. -/
theorem C7_connect_failure_state (env : PymongoEnv) (h : MongoConnectionHandler) :
    (∀ e, env.mkClient h.connection_string = .raises e →
      connect env h = (h, some (connectRemap h.db_name e))) ∧
    (∀ c e, env.mkClient h.connection_string = .ok c →
      env.clientGetDatabase c h.db_name = .raises e →
      connect env h =
        (⟨h.connection_string, h.db_name, some c, h.db_connection⟩,
         some (connectRemap h.db_name e))) := by
  constructor
  · intro e he
    simp [connect, he]
  · intro c e hc hd
    simp [connect, hc, hd]

/-- C7 witness: both parts of the amended theorem at concrete
environments — a timeout during client creation leaves the fresh handler
untouched (both handles null), and a connection failure during database
binding leaves the new client set. -/
theorem C7_witness :
    connect ⟨fun _ => .raises (.ServerSelectionTimeoutError "t"), fun _ _ => .ok 0⟩
        (mongoConnectionHandlerInit "mongodb://host" "bank") =
      (mongoConnectionHandlerInit "mongodb://host" "bank",
       some (connectRemap "bank" (.ServerSelectionTimeoutError "t"))) ∧
    connect ⟨fun _ => .ok 7, fun _ _ => .raises (.ConnectionFailure "denied")⟩
        (mongoConnectionHandlerInit "mongodb://host" "bank") =
      (⟨"mongodb://host", "bank", some 7, none⟩,
       some (connectRemap "bank" (.ConnectionFailure "denied"))) :=
  ⟨(C7_connect_failure_state
      ⟨fun _ => .raises (.ServerSelectionTimeoutError "t"), fun _ _ => .ok 0⟩
      (mongoConnectionHandlerInit "mongodb://host" "bank")).1
      (.ServerSelectionTimeoutError "t") rfl,
   (C7_connect_failure_state
      ⟨fun _ => .ok 7, fun _ _ => .raises (.ConnectionFailure "denied")⟩
      (mongoConnectionHandlerInit "mongodb://host" "bank")).2
      7 (.ConnectionFailure "denied") rfl rfl⟩

/-- Membership in the sorted output is membership in the input: the
mini-store sort is a permutation. -/
theorem mem_sortDocs (spec : SortSpec) (l : List Doc) (d : Doc) :
    d ∈ sortDocs spec l ↔ d ∈ l :=
  (List.perm_insertionSort _ _).mem_iff

/-- C8: for every non-empty sequence of filters, `search_many_or` issues
exactly one `find` call, whose query is the single-key dictionary
`{"$or": [f1, ..., fn]}` (with the given projection and sort attached to
that same call) — not one query per filter — and, with no projection, it
returns exactly the documents matching at least one of the filters (their
set is unchanged by an optional sort). -/
theorem C8_search_many_or_single_query
    (docs : List Doc) (fs : List MongoFilter) (ro : Option Projection)
    (ob : Option SortSpec) (_hfs : fs ≠ []) :
    (search_many_or docs fs ro ob).2 = [⟨or_query, fs, ro, ob⟩] ∧
    (search_many_or docs fs none none).1 =
      docs.filter (fun d => fs.any (fun f => matchesFilter d f)) ∧
    (∀ d, d ∈ (search_many_or docs fs none ob).1 ↔
      d ∈ docs ∧ ∃ f ∈ fs, matchesFilter d f = true) := by
  refine ⟨?_, rfl, ?_⟩
  · cases ro <;> cases ob <;> rfl
  · intro d
    cases ob with
    | none =>
      simp [search_many_or, storeFindOr, List.mem_filter, List.any_eq_true]
    | some s =>
      simp [search_many_or, storeFindOr, mem_sortDocs, List.mem_filter,
        List.any_eq_true]

/-- C8 witness: the theorem at a concrete store and filter list, checking
the single-call shape, the returned document list, and the membership
characterization at one document. -/
theorem C8_witness :
    ([[("name", PyVal.pyStr "pedro")], [("age", PyVal.pyInt 30)]] : List MongoFilter) ≠ [] ∧
    (search_many_or
        [[("name", PyVal.pyStr "pedro")], [("name", PyVal.pyStr "ana")]]
        [[("name", PyVal.pyStr "pedro")], [("age", PyVal.pyInt 30)]]
        none none).2 =
      [⟨or_query, [[("name", PyVal.pyStr "pedro")], [("age", PyVal.pyInt 30)]], none, none⟩] ∧
    (search_many_or
        [[("name", PyVal.pyStr "pedro")], [("name", PyVal.pyStr "ana")]]
        [[("name", PyVal.pyStr "pedro")], [("age", PyVal.pyInt 30)]]
        none none).1 =
      [[("name", PyVal.pyStr "pedro")], [("name", PyVal.pyStr "ana")]].filter
        (fun d => [[("name", PyVal.pyStr "pedro")], [("age", PyVal.pyInt 30)]].any
          (fun f => matchesFilter d f)) :=
  ⟨by decide,
   (C8_search_many_or_single_query
      [[("name", PyVal.pyStr "pedro")], [("name", PyVal.pyStr "ana")]]
      [[("name", PyVal.pyStr "pedro")], [("age", PyVal.pyInt 30)]]
      none none (by decide)).1,
   (C8_search_many_or_single_query
      [[("name", PyVal.pyStr "pedro")], [("name", PyVal.pyStr "ana")]]
      [[("name", PyVal.pyStr "pedro")], [("age", PyVal.pyInt 30)]]
      none none (by decide)).2.1⟩

/-- C9: for every supported time unit (any capitalization the lowercasing
accepts) and integer magnitude, `create_new_index_ttl` (with the default
direction 1) creates one index on `(name_index, 1)` whose
`expireAfterSeconds` option is exactly magnitude × the unit's length in
seconds, and returns `True`. -/
theorem C9_ttl_expiry_seconds
    (time_metric : String) (time_to_live u : Int) (name_index : String)
    (hu : time_units (pyLower time_metric) = some u) :
    create_new_index_ttl time_metric time_to_live name_index 1 =
      ⟨.ok true, [((name_index, 1), time_to_live * u)]⟩ := by
  simp [create_new_index_ttl, hu]

/-- C9 witness: `create_new_index_ttl("minutes", 5, "expiresAt")` passes an
expiry of 300 seconds. -/
theorem C9_witness :
    time_units (pyLower "minutes") = some 60 ∧
    create_new_index_ttl "minutes" 5 "expiresAt" 1 =
      ⟨.ok true, [(("expiresAt", 1), 300)]⟩ :=
  ⟨by decide, C9_ttl_expiry_seconds "minutes" 5 60 "expiresAt" (by decide)⟩

/-- C10: a delta mapping containing a Python boolean always makes
`update_many_with_increment` raise the non-numeric-delta `ValueError`
(the check compares `type(number)` against exactly `int` and `float`, and
`type(True)` is `bool`), and no `$inc` call carrying a boolean delta is
ever issued to the store. -/
theorem C10_boolean_delta_rejected
    (docs : List Doc) (f : MongoFilter) (kns : List (String × PyVal))
    (k : String) (b : Bool) (hmem : (k, PyVal.pyBool b) ∈ kns) :
    (update_many_with_increment docs f kns).outcome =
      .raises (.ValueError "The value of increment/decrement must be only an int or a float!") ∧
    (update_many_with_increment docs f kns).calls.all
      (fun c => !isPyBool c.2.2.2) = true := by
  induction kns generalizing docs with
  | nil => cases hmem
  | cons p rest ih =>
    obtain ⟨k0, v0⟩ := p
    by_cases hv : v0.isIntOrFloatType = true
    · have hmem0 : (k, PyVal.pyBool b) ∈ rest := by
        rcases List.mem_cons.mp hmem with h | h
        · exfalso
          injection h with h1 h2
          rw [← h2] at hv
          simp [PyVal.isIntOrFloatType] at hv
        · exact h
      have ih0 := ih (updateManyInc docs f k0 v0).1 hmem0
      simp only [update_many_with_increment, incLoop, hv, if_true, List.all_cons,
        Bool.and_eq_true] at ih0 ⊢
      refine ⟨?_, ?_, ih0.2⟩
      · rw [ih0.1]
      · cases v0 <;> simp_all [PyVal.isIntOrFloatType, isPyBool]
    · have hvf : v0.isIntOrFloatType = false := by
        cases hb : v0.isIntOrFloatType
        · rfl
        · exact absurd hb hv
      simp [update_many_with_increment, incLoop, hvf]

/-- C10 witness: the theorem at the delta mapping `{"a": True}`. -/
theorem C10_witness :
    (("a", PyVal.pyBool true) ∈ [("a", PyVal.pyBool true)]) ∧
    (update_many_with_increment [] [] [("a", PyVal.pyBool true)]).outcome =
      .raises (.ValueError "The value of increment/decrement must be only an int or a float!") ∧
    (update_many_with_increment [] [] [("a", PyVal.pyBool true)]).calls.all
      (fun c => !isPyBool c.2.2.2) = true :=
  ⟨by decide,
   (C10_boolean_delta_rejected [] [] [("a", PyVal.pyBool true)] "a" true (by decide)).1,
   (C10_boolean_delta_rejected [] [] [("a", PyVal.pyBool true)] "a" true (by decide)).2⟩

end Mongo
